import Mathlib

/-!
Verification of the pylot waypoint-planning operator
(`src/pylot/planning/waypoint_planning_operator.py`) and the simulator
event messages (`src/pylot/simulation/messages.py`).

The operator orchestrates external capabilities (the `Waypoints` path
store, `pylot.utils` geometry, the `stop_for_agents` stopping policy and
the erdos message queues) that are not part of the two source files.
Those capabilities are modelled abstractly as an environment of
functions (`Env` below); the orchestration logic itself — queue pops,
the stop-tracking state machine, branching on message shape, the
initialization / periodic-recompute / degenerate-cycle control flow,
the try/except around the lookahead queries and the policy call, and
the two emissions per cycle — is translated line by line from
`on_watermark` and `predictions_to_world_coordinates`.

Python exceptions (IndexError from `deque.popleft` on an empty queue,
ValueError from the shape check) are modelled with `Except PyError`.
All `waypoints_stream.send` calls in the source occur after the points
at which these exceptions can be raised, so an `Except.error` result
faithfully corresponds to a cycle in which nothing was emitted.
-/

/-- Python exceptions that the modelled code can raise. -/
inductive PyError where
  | indexError
  | valueError
deriving DecidableEq

/-- A 3-D location. Modelled from the spec: `pylot.utils.Location` is not in
src; coordinates are modelled as rationals. -/
structure Location where
  x : ℚ
  y : ℚ
  z : ℚ
deriving DecidableEq

/-- A pose: location plus orientation. Modelled from the spec:
`pylot.utils.Transform` is not in src; the orientation is collapsed to a
single yaw component, which no claim inspects. -/
structure Transform where
  location : Location
  yaw : ℚ
deriving DecidableEq

/-- Pose data carried on the pose channel: transform and forward speed
(`pose_msg.transform`, `pose_msg.forward_speed`). -/
structure PoseData where
  transform : Transform
  forward_speed : ℚ
deriving DecidableEq

/-- An erdos message on the pose stream; `on_watermark` reads `.data`. -/
structure PoseMessage where
  data : PoseData
deriving DecidableEq

/-- An obstacle prediction. Modelled from the spec:
`pylot.prediction.messages.ObstaclePrediction` is not in src; it carries a
pose (`transform`) and a predicted trajectory of poses, plus fields the
planner never rewrites (an identifier and a probability). -/
structure ObstaclePrediction where
  obstacle : ℕ
  probability : ℚ
  transform : Transform
  predicted_trajectory : List Transform
deriving DecidableEq

/-- The message popped from the prediction queue. The source branches on
`isinstance(msg, ObstaclesMessage)` / `isinstance(msg, PredictionMessage)`
and raises ValueError on any other class; `other` models an arbitrary
unrecognized message type. -/
inductive PredMsg where
  | obstaclesMessage (obstacles : List ObstaclePrediction)
  | predictionMessage (predictions : List ObstaclePrediction)
  | other
deriving DecidableEq

/-- The message popped from the traffic-light queue; `on_watermark` only
reads `.obstacles` and passes it to the policy, so the traffic-light
obstacles are opaque. -/
structure TrafficLightsMessage where
  obstacles : List ℕ
deriving DecidableEq

/-- The path store object. Modelled from the spec:
`pylot.planning.waypoints.Waypoints` is not in src; it is constructed in
the source as `Waypoints(deque(), deque())`, holding a waypoint deque, a
road-option deque and target speeds. Its operations live in `Env`. -/
structure Waypoints where
  waypoints : List Transform
  road_options : List ℕ
  target_speeds : List ℚ
deriving DecidableEq

/-- An opaque handle for the HD map capability (`self._map`). -/
def HDMap : Type := ℕ

instance : DecidableEq HDMap := inferInstanceAs (DecidableEq ℕ)

/-- A 2-D vector, the result type of `Waypoints.get_vector`. -/
structure Vector2 where
  x : ℚ
  y : ℚ
deriving DecidableEq

/-- The fields of `self._flags` that `on_watermark` reads. -/
structure Flags where
  min_pid_steer_waypoint_distance : ℚ
  target_speed : ℚ
  num_waypoints_ahead : ℕ
deriving DecidableEq

/-- The external capabilities called by `on_watermark` whose code is not in
src: `Location.distance` and `Transform.__mul__` from `pylot.utils`, the
`Waypoints` path-store operations, and the `stop_for_agents` stopping
policy (which may itself raise ValueError, modelled as `none`). The
`Waypoints` operations that mutate in place (`recompute_waypoints`,
`remove_completed`) are modelled as returning the updated object;
`get_vector` / `get_angle` raise ValueError on an exhausted path,
modelled as `none`. `recompute_waypoints` receives the operator's map and
goal exactly as the source passes them (possibly absent). -/
structure Env where
  dist : Location → Location → ℚ
  mul : Transform → Transform → Transform
  recompute_waypoints : Waypoints → Option HDMap → Location → Option Location → Waypoints
  remove_completed : Waypoints → Location → Transform → Waypoints
  get_vector : Waypoints → Transform → ℚ → Option Vector2
  get_angle : Waypoints → Transform → ℚ → Option ℚ
  slice_waypoints : Waypoints → ℕ → ℕ → ℚ → Waypoints
  stop_for_agents : Transform → ℚ → Vector2 → List ObstaclePrediction → List ℕ → ℚ → Option ℚ

/-- Messages sent on `waypoints_stream`: a `WaypointsMessage` carrying the
sliced horizon, or an erdos `WatermarkMessage` (the completion marker). -/
inductive OutMsg where
  | waypointsMessage (timestamp : ℕ) (waypoints : Waypoints)
  | watermarkMessage (timestamp : ℕ)
deriving DecidableEq

/-- The operator state touched by `on_watermark`: the watermark counter,
the stop-tracking location, the three per-channel FIFO queues (front of
the list is the next `popleft`), the path store, map, goal, and the
`self._recompute_waypoints` flag (named `recompute_waypoints_flag` here
to avoid clashing with the path-store operation). -/
structure OpState where
  watermark_cnt : ℕ
  last_stop_ego_location : Option Location
  pose_msgs : List PoseMessage
  traffic_light_msgs : List TrafficLightsMessage
  prediction_msgs : List PredMsg
  waypoints : Option Waypoints
  map : Option HDMap
  goal_location : Option Location
  recompute_waypoints_flag : Bool
deriving DecidableEq

/-- `RECOMPUTE_WAYPOINT_EVERY_N_WATERMARKS = 5` (module constant). -/
def RECOMPUTE_WAYPOINT_EVERY_N_WATERMARKS : ℕ := 5

/-- `deque.popleft`: returns the front element and the rest, raising
IndexError on an empty deque. -/
def popleft {α : Type} : List α → Except PyError (α × List α)
  | [] => .error .indexError
  | x :: xs => .ok (x, xs)

/-- Lines 115-121 of the source loop over the predictions, reassigning each
prediction's `transform` to `ego_transform * transform` and each point of
its `predicted_trajectory` to `ego_transform * point`, in place. The loop
is modelled as structural recursion producing the updated objects (the
source returns the same, now-updated, list). -/
def predictions_to_world_coordinates (mul : Transform → Transform → Transform)
    (ego_transform : Transform) :
    List ObstaclePrediction → List ObstaclePrediction
  | [] => []
  | op :: rest =>
    { op with
      transform := mul ego_transform op.transform,
      predicted_trajectory :=
        op.predicted_trajectory.map (fun t => mul ego_transform t) } ::
      predictions_to_world_coordinates mul ego_transform rest

/-- Lines 47-55: the stop-tracking update. Below the 0.08 threshold the
distance is 0 and the current ego location is recorded; otherwise the
distance to the recorded stop location is computed when one exists, else 0
(and the recorded location is left unchanged). Returns the pair
(distance_since_last_full_stop, new last_stop_ego_location). -/
def stop_update (env : Env) (last_stop : Option Location) (pose_msg : PoseData) :
    ℚ × Option Location :=
  if pose_msg.forward_speed < 0.08 then
    (0, some pose_msg.transform.location)
  else
    match last_stop with
    | some loc => (env.dist pose_msg.transform.location loc, some loc)
    | none => (0, none)

/-- Lines 58-65: branch on the obstacle message shape; an unrecognized
shape raises ValueError. -/
def resolve_obstacles (env : Env) (ego_transform : Transform) :
    PredMsg → Except PyError (List ObstaclePrediction)
  | .obstaclesMessage obstacles => .ok obstacles
  | .predictionMessage predictions =>
    .ok (predictions_to_world_coordinates env.mul ego_transform predictions)
  | .other => .error .valueError

/-- Lines 90-107: the try/except ValueError block. `get_vector`,
`get_angle` and `stop_for_agents` each may raise ValueError (modelled as
`none`); the handler sets the target speed to 0. Returns the target speed
together with the number of `stop_for_agents` invocations (instrumentation
recording whether the policy was called). -/
def compute_target_speed (env : Env) (flags : Flags) (ego_transform : Transform)
    (wps : Waypoints) (obstacles : List ObstaclePrediction) (tl_obstacles : List ℕ)
    (distance_since_last_full_stop : ℚ) : ℚ × ℕ :=
  match env.get_vector wps ego_transform flags.min_pid_steer_waypoint_distance with
  | none => (0, 0)
  | some wp_vector =>
    match env.get_angle wps ego_transform flags.min_pid_steer_waypoint_distance with
    | none => (0, 0)
    | some wp_angle =>
      match env.stop_for_agents ego_transform wp_angle wp_vector obstacles
          tl_obstacles distance_since_last_full_stop with
      | none => (0, 1)
      | some speed_factor => (speed_factor * flags.target_speed, 1)

/-- The outcome of one completed `on_watermark` cycle: the updated operator
state and the emitted messages, plus instrumentation recording how many
times `recompute_waypoints` and `stop_for_agents` were invoked and the
`distance_since_last_full_stop` value computed for the cycle. -/
structure CycleResult where
  state : OpState
  emitted : List OutMsg
  recompute_calls : ℕ
  policy_calls : ℕ
  distance_since_last_full_stop : ℚ
deriving DecidableEq

/-- Lines 83-111: the tail of `on_watermark` reached once a path object
exists (either pre-existing or freshly initialized; `init_recomputes` is 1
when the initialization branch already invoked `recompute_waypoints`).
Performs the periodic recompute gated on the (already incremented)
watermark counter, prunes completed waypoints, computes the target speed,
slices the horizon and emits it followed by the watermark. -/
def main_stage (env : Env) (flags : Flags) (timestamp : ℕ) (s1 : OpState)
    (ego_transform : Transform) (obstacles : List ObstaclePrediction)
    (tl_obstacles : List ℕ) (distance_since_last_full_stop : ℚ)
    (wps : Waypoints) (init_recomputes : ℕ) : CycleResult :=
  let periodic := s1.recompute_waypoints_flag &&
    s1.watermark_cnt % RECOMPUTE_WAYPOINT_EVERY_N_WATERMARKS == 0
  let wps1 := if periodic then
      env.recompute_waypoints wps s1.map ego_transform.location s1.goal_location
    else wps
  let wps2 := env.remove_completed wps1 ego_transform.location ego_transform
  let speed_calls := compute_target_speed env flags ego_transform wps2 obstacles
    tl_obstacles distance_since_last_full_stop
  let head_waypoints := env.slice_waypoints wps2 0 flags.num_waypoints_ahead speed_calls.1
  { state := { s1 with waypoints := some wps2 },
    emitted := [OutMsg.waypointsMessage timestamp head_waypoints,
                OutMsg.watermarkMessage timestamp],
    recompute_calls := init_recomputes + (if periodic then 1 else 0),
    policy_calls := speed_calls.2,
    distance_since_last_full_stop := distance_since_last_full_stop }

/-- Lines 42-111: one watermark cycle. Increments the watermark counter,
pops the three required queues (IndexError when one is empty), updates the
stop-tracking state, resolves the obstacle message shape (ValueError on an
unrecognized shape), then either initializes the path (map and goal
present), returns the degenerate empty horizon (no path and map or goal
absent), or proceeds to the main stage. -/
def on_watermark (env : Env) (flags : Flags) (timestamp : ℕ) (s : OpState) :
    Except PyError CycleResult :=
  let watermark_cnt := s.watermark_cnt + 1
  match popleft s.pose_msgs with
  | .error e => .error e
  | .ok (pose_wrapper, pose_rest) =>
    let pose_msg := pose_wrapper.data
    let ego_transform := pose_msg.transform
    let su := stop_update env s.last_stop_ego_location pose_msg
    match popleft s.traffic_light_msgs with
    | .error e => .error e
    | .ok (tl_msg, tl_rest) =>
      match popleft s.prediction_msgs with
      | .error e => .error e
      | .ok (obstacles_msg, pred_rest) =>
        match resolve_obstacles env ego_transform obstacles_msg with
        | .error e => .error e
        | .ok obstacles =>
          let s1 : OpState :=
            { s with
              watermark_cnt := watermark_cnt,
              last_stop_ego_location := su.2,
              pose_msgs := pose_rest,
              traffic_light_msgs := tl_rest,
              prediction_msgs := pred_rest }
          match s1.waypoints with
          | none =>
            if s1.map.isSome && s1.goal_location.isSome then
              .ok (main_stage env flags timestamp s1 ego_transform obstacles
                tl_msg.obstacles su.1
                (env.recompute_waypoints ⟨[], [], []⟩ s1.map
                  ego_transform.location s1.goal_location) 1)
            else
              .ok { state := s1,
                    emitted := [OutMsg.waypointsMessage timestamp ⟨[], [], []⟩,
                                OutMsg.watermarkMessage timestamp],
                    recompute_calls := 0,
                    policy_calls := 0,
                    distance_since_last_full_stop := su.1 }
          | some wps =>
            .ok (main_stage env flags timestamp s1 ego_transform obstacles
              tl_msg.obstacles su.1 wps 0)

/-! Embedding of `src/pylot/simulation/messages.py`. The constructors
perform Python `isinstance` checks on their arguments, so the arguments
are modelled as dynamically typed values. -/

/-- A `carla.Actor`; the constructor only reads its `type_id`. -/
structure Actor where
  type_id : String
deriving DecidableEq

/-- The impulse vector (`pylot.utils.Vector3D`, not in src). -/
structure Vector3D where
  x : ℚ
  y : ℚ
  z : ℚ
deriving DecidableEq

/-- A dynamically typed Python value, carrying just enough structure for
the `isinstance` checks in `messages.py`: a `carla.Actor`, a
`pylot.utils.Vector3D`, a `LaneMarking`, a `LaneType` (both opaque), or a
value of any other class. -/
inductive PyVal where
  | actor (a : Actor)
  | vector3d (v : Vector3D)
  | laneMarking (m : ℕ)
  | laneType (t : ℕ)
  | otherVal
deriving DecidableEq

/-- `isinstance(x, carla.Actor)`. -/
def PyVal.isActor : PyVal → Bool
  | .actor _ => true
  | _ => false

/-- `isinstance(x, pylot.utils.Vector3D)`. -/
def PyVal.isVector3D : PyVal → Bool
  | .vector3d _ => true
  | _ => false

/-- `isinstance(x, pylot.utils.LaneMarking)`. -/
def PyVal.isLaneMarking : PyVal → Bool
  | .laneMarking _ => true
  | _ => false

/-- `isinstance(x, pylot.utils.LaneType)`. -/
def PyVal.isLaneType : PyVal → Bool
  | .laneType _ => true
  | _ => false

/-- The attributes a constructed `CollisionMessage` stores: the collided
actor's `type_id`, the impulse, and the derived intensity. -/
structure CollisionMessage where
  timestamp : ℕ
  collided_actor : String
  impulse : Vector3D
  intensity : ℚ
deriving DecidableEq

/-- Lines 28-43 of `messages.py`: `CollisionMessage.__init__`. Checks that
`collided_actor` is a `carla.Actor` and `impulse` a `Vector3D`, raising
ValueError otherwise; on success stores `collided_actor.type_id`, the
impulse, and `intensity = impulse.magnitude()`. The `magnitude` parameter
models `Vector3D.magnitude` (in `pylot.utils`, not in src). -/
def CollisionMessage.init (magnitude : Vector3D → ℚ)
    (collided_actor impulse : PyVal) (timestamp : ℕ) :
    Except PyError CollisionMessage :=
  match collided_actor with
  | .actor a =>
    match impulse with
    | .vector3d v =>
      .ok { timestamp := timestamp, collided_actor := a.type_id,
            impulse := v, intensity := magnitude v }
    | _ => .error .valueError
  | _ => .error .valueError

/-- The attributes a constructed `LaneInvasionMessage` stores. -/
structure LaneInvasionMessage where
  timestamp : ℕ
  lane_markings : List PyVal
  lane_type : PyVal
deriving DecidableEq

/-- Lines 76-89 of `messages.py`: `LaneInvasionMessage.__init__`. Checks
that every lane marking is a `LaneMarking` and that `lane_type` is a
`LaneType`, raising ValueError otherwise; on success stores the given
lane markings and lane type unchanged. -/
def LaneInvasionMessage.init (lane_markings : List PyVal) (lane_type : PyVal)
    (timestamp : ℕ) : Except PyError LaneInvasionMessage :=
  if ¬ (lane_markings.all PyVal.isLaneMarking) then
    .error .valueError
  else if ¬ lane_type.isLaneType then
    .error .valueError
  else
    .ok { timestamp := timestamp, lane_markings := lane_markings,
          lane_type := lane_type }

/-! Helper lemmas. -/

/-- Characterization of `predictions_to_world_coordinates` as a map over the
input predictions. -/
theorem predictions_to_world_coordinates_eq_map
    (mul : Transform → Transform → Transform) (ego_transform : Transform)
    (preds : List ObstaclePrediction) :
    predictions_to_world_coordinates mul ego_transform preds =
      preds.map (fun op =>
        { op with
          transform := mul ego_transform op.transform,
          predicted_trajectory :=
            op.predicted_trajectory.map (fun t => mul ego_transform t) }) := by
  induction preds with
  | nil => rfl
  | cons op rest ih =>
    simp [predictions_to_world_coordinates, ih]

/-- Inversion of a completed cycle: any `on_watermark` run that returns a
result popped a pose message, computed the stop-tracking fields from it,
emitted exactly the horizon message followed by the watermark for the
cycle's timestamp, and invoked `recompute_waypoints` a number of times
determined by the initialization and periodic-recompute conditions. -/
theorem on_watermark_ok_shape (env : Env) (flags : Flags) (ts : ℕ) (s : OpState)
    (r : CycleResult) (hr : on_watermark env flags ts s = .ok r) :
    (∃ pm pr, s.pose_msgs = pm :: pr ∧
      r.distance_since_last_full_stop =
        (stop_update env s.last_stop_ego_location pm.data).1 ∧
      r.state.last_stop_ego_location =
        (stop_update env s.last_stop_ego_location pm.data).2) ∧
    (∃ w, r.emitted = [OutMsg.waypointsMessage ts w, OutMsg.watermarkMessage ts]) ∧
    r.recompute_calls =
      (if s.waypoints = none then
        (if s.map.isSome && s.goal_location.isSome then
          1 + (if s.recompute_waypoints_flag &&
                (s.watermark_cnt + 1) % RECOMPUTE_WAYPOINT_EVERY_N_WATERMARKS == 0
              then 1 else 0)
        else 0)
      else
        (if s.recompute_waypoints_flag &&
            (s.watermark_cnt + 1) % RECOMPUTE_WAYPOINT_EVERY_N_WATERMARKS == 0
          then 1 else 0)) := by
  unfold on_watermark at hr
  cases hp : s.pose_msgs with
  | nil => rw [hp] at hr; simp [popleft] at hr
  | cons pm pr =>
  rw [hp] at hr
  cases htl : s.traffic_light_msgs with
  | nil => rw [htl] at hr; simp [popleft] at hr
  | cons tlm tr =>
  rw [htl] at hr
  cases hom : s.prediction_msgs with
  | nil => rw [hom] at hr; simp [popleft] at hr
  | cons om orr =>
  rw [hom] at hr
  simp only [popleft] at hr
  cases hro : resolve_obstacles env pm.data.transform om with
  | error e => rw [hro] at hr; simp at hr
  | ok obstacles =>
  rw [hro] at hr
  simp only at hr
  cases hwp : s.waypoints with
  | none =>
    rw [hwp] at hr
    by_cases hmg : (s.map.isSome && s.goal_location.isSome) = true
    · rw [if_pos hmg] at hr
      simp only [Except.ok.injEq] at hr
      subst hr
      refine ⟨⟨pm, pr, rfl, rfl, rfl⟩, ⟨_, rfl⟩, ?_⟩
      simp [main_stage, hwp, hmg]
    · rw [if_neg hmg] at hr
      simp only [Except.ok.injEq] at hr
      subst hr
      refine ⟨⟨pm, pr, rfl, rfl, rfl⟩, ⟨_, rfl⟩, ?_⟩
      simp [hwp, hmg]
  | some wps =>
    rw [hwp] at hr
    simp only [Except.ok.injEq] at hr
    subst hr
    refine ⟨⟨pm, pr, rfl, rfl, rfl⟩, ⟨_, rfl⟩, ?_⟩
    simp [main_stage, hwp]

/-- Decidable equality of `Except` results, used to evaluate concrete runs. -/
instance {e a : Type} [DecidableEq e] [DecidableEq a] : DecidableEq (Except e a)
  | .error x, .error y =>
    if h : x = y then .isTrue (by rw [h]) else .isFalse (by simp [h])
  | .error _, .ok _ => .isFalse (by simp)
  | .ok _, .error _ => .isFalse (by simp)
  | .ok x, .ok y =>
    if h : x = y then .isTrue (by rw [h]) else .isFalse (by simp [h])

/-! Concrete sample values used to evaluate the theorems on closed runs. -/

/-- The origin location. -/
def locW : Location := ⟨0, 0, 0⟩

/-- The identity-pose transform. -/
def transformW : Transform := ⟨locW, 0⟩

/-- The `Waypoints(deque(), deque())` object. -/
def emptyWaypoints : Waypoints := ⟨[], [], []⟩

/-- A concrete environment: zero distances, left-projection composition,
identity path-store operations, and lookahead queries and policy that
signal ValueError. -/
def envW : Env :=
  { dist := fun _ _ => 0
    mul := fun a _ => a
    recompute_waypoints := fun w _ _ _ => w
    remove_completed := fun w _ _ => w
    get_vector := fun _ _ _ => none
    get_angle := fun _ _ _ => none
    slice_waypoints := fun w _ _ _ => w
    stop_for_agents := fun _ _ _ _ _ _ => none }

/-- Concrete flags. -/
def flagsW : Flags := ⟨1, 10, 3⟩

/-- A pose message travelling at speed 1. -/
def poseW : PoseMessage := ⟨⟨transformW, 1⟩⟩

/-- An empty traffic-lights message. -/
def tlW : TrafficLightsMessage := ⟨[]⟩

/-- A base operator state: one message per queue, an initialized empty
path, no map, no goal. -/
def sBase : OpState :=
  { watermark_cnt := 0
    last_stop_ego_location := none
    pose_msgs := [poseW]
    traffic_light_msgs := [tlW]
    prediction_msgs := [PredMsg.obstaclesMessage []]
    waypoints := some emptyWaypoints
    map := none
    goal_location := none
    recompute_waypoints_flag := false }

/-- The cycle result of running `on_watermark envW flagsW 0 sBase`. -/
def cycleBase : CycleResult :=
  { state :=
      { sBase with
        watermark_cnt := 1
        pose_msgs := []
        traffic_light_msgs := []
        prediction_msgs := [] }
    emitted := [OutMsg.waypointsMessage 0 emptyWaypoints,
                OutMsg.watermarkMessage 0]
    recompute_calls := 0
    policy_calls := 0
    distance_since_last_full_stop := 0 }

/-- Evaluation of the base run. -/
theorem runBase : on_watermark envW flagsW 0 sBase = .ok cycleBase := by
  norm_num [on_watermark, popleft, stop_update, resolve_obstacles, main_stage,
    compute_target_speed, envW, flagsW, sBase, poseW, tlW, cycleBase,
    emptyWaypoints, transformW, locW, RECOMPUTE_WAYPOINT_EVERY_N_WATERMARKS]

/-! Claim theorems. -/

/-- C1: in every completed cycle the stop-tracking state is recomputed from
the popped pose message: below the 0.08 threshold the distance since the
last full stop is 0 and the current ego location is recorded as the stop
location; at or above the threshold the distance equals the distance from
the current ego location to the recorded stop location when one exists and
0 otherwise; and (distances being nonnegative) the distance since the last
full stop is always nonnegative. -/
theorem stop_tracking_recompute (env : Env) (flags : Flags) (ts : ℕ)
    (s : OpState) (r : CycleResult) (pm : PoseMessage) (pr : List PoseMessage)
    (hd : ∀ a b : Location, 0 ≤ env.dist a b)
    (hp : s.pose_msgs = pm :: pr)
    (hr : on_watermark env flags ts s = .ok r) :
    (pm.data.forward_speed < 0.08 →
      r.distance_since_last_full_stop = 0 ∧
      r.state.last_stop_ego_location = some pm.data.transform.location) ∧
    (0.08 ≤ pm.data.forward_speed →
      r.distance_since_last_full_stop =
        (match s.last_stop_ego_location with
         | some l => env.dist pm.data.transform.location l
         | none => 0)) ∧
    0 ≤ r.distance_since_last_full_stop := by
  obtain ⟨⟨pm', pr', hp', hdist, hlast⟩, -, -⟩ :=
    on_watermark_ok_shape env flags ts s r hr
  rw [hp] at hp'
  injection hp' with h1 h2
  subst h1
  by_cases hs : pm.data.forward_speed < 0.08
  · refine ⟨fun _ => ⟨?_, ?_⟩, fun hge => absurd hs (not_lt.mpr hge), ?_⟩
    · rw [hdist]; simp [stop_update, hs]
    · rw [hlast]; simp [stop_update, hs]
    · rw [hdist]; simp [stop_update, hs]
  · refine ⟨fun hlt => absurd hlt hs, fun _ => ?_, ?_⟩
    · rw [hdist]
      cases hls : s.last_stop_ego_location with
      | none => simp [stop_update, hs, hls]
      | some l => simp [stop_update, hs, hls]
    · rw [hdist]
      cases hls : s.last_stop_ego_location with
      | none => simp [stop_update, hs, hls]
      | some l =>
        simp only [stop_update, if_neg hs, hls]
        exact hd _ _

/-- A stopped pose message (speed 0.05, below the threshold). -/
def poseC1 : PoseMessage := ⟨⟨transformW, 1/20⟩⟩

/-- The base state with the stopped pose at the head of the pose queue. -/
def sC1 : OpState := { sBase with pose_msgs := [poseC1] }

/-- The cycle result of running `on_watermark envW flagsW 0 sC1`. -/
def cycleC1 : CycleResult :=
  { state :=
      { sBase with
        watermark_cnt := 1
        last_stop_ego_location := some locW
        pose_msgs := []
        traffic_light_msgs := []
        prediction_msgs := [] }
    emitted := [OutMsg.waypointsMessage 0 emptyWaypoints,
                OutMsg.watermarkMessage 0]
    recompute_calls := 0
    policy_calls := 0
    distance_since_last_full_stop := 0 }

/-- Evaluation of the stopped-cycle run. -/
theorem runC1 : on_watermark envW flagsW 0 sC1 = .ok cycleC1 := by
  norm_num [on_watermark, popleft, stop_update, resolve_obstacles, main_stage,
    compute_target_speed, envW, flagsW, sBase, sC1, poseC1, tlW, cycleC1,
    emptyWaypoints, transformW, locW, RECOMPUTE_WAYPOINT_EVERY_N_WATERMARKS]

/-- Witness for C1 on a concrete stopped cycle. -/
theorem stop_tracking_recompute_witness :
    (poseC1.data.forward_speed < 0.08 →
      cycleC1.distance_since_last_full_stop = 0 ∧
      cycleC1.state.last_stop_ego_location = some poseC1.data.transform.location) ∧
    (0.08 ≤ poseC1.data.forward_speed →
      cycleC1.distance_since_last_full_stop =
        (match sC1.last_stop_ego_location with
         | some l => envW.dist poseC1.data.transform.location l
         | none => 0)) ∧
    0 ≤ cycleC1.distance_since_last_full_stop :=
  stop_tracking_recompute envW flagsW 0 sC1 cycleC1 poseC1 []
    (fun _ _ => le_rfl) rfl runC1

/-- C3: every completed cycle emits exactly one waypoint-horizon message
followed by exactly one watermark message, both for the cycle's
timestamp. -/
theorem emits_horizon_then_watermark (env : Env) (flags : Flags) (ts : ℕ)
    (s : OpState) (r : CycleResult)
    (hr : on_watermark env flags ts s = .ok r) :
    ∃ w, r.emitted =
      [OutMsg.waypointsMessage ts w, OutMsg.watermarkMessage ts] :=
  (on_watermark_ok_shape env flags ts s r hr).2.1

/-- Witness for C3 on a concrete completed cycle. -/
theorem emits_horizon_then_watermark_witness :
    on_watermark envW flagsW 0 sBase = .ok cycleBase ∧
    ∃ w, cycleBase.emitted =
      [OutMsg.waypointsMessage 0 w, OutMsg.watermarkMessage 0] :=
  ⟨runBase, emits_horizon_then_watermark envW flagsW 0 sBase cycleBase runBase⟩

/-- A degenerate-cycle state: no path yet, goal present but map absent,
recompute flag set, and watermark counter about to reach a multiple of 5. -/
def sC2 : OpState :=
  { sBase with
    watermark_cnt := 4
    recompute_waypoints_flag := true
    waypoints := none
    goal_location := some locW }

/-- The cycle result of running `on_watermark envW flagsW 0 sC2`. -/
def cycleC2x : CycleResult :=
  { state :=
      { sC2 with
        watermark_cnt := 5
        pose_msgs := []
        traffic_light_msgs := []
        prediction_msgs := [] }
    emitted := [OutMsg.waypointsMessage 0 emptyWaypoints,
                OutMsg.watermarkMessage 0]
    recompute_calls := 0
    policy_calls := 0
    distance_since_last_full_stop := 0 }

/-- Evaluation of the degenerate-cycle run. -/
theorem runC2x : on_watermark envW flagsW 0 sC2 = .ok cycleC2x := by
  norm_num [on_watermark, popleft, stop_update, resolve_obstacles, main_stage,
    compute_target_speed, envW, flagsW, sBase, sC2, poseW, tlW, cycleC2x,
    emptyWaypoints, transformW, locW, RECOMPUTE_WAYPOINT_EVERY_N_WATERMARKS]

/-- C2 counterexample: a cycle whose incremented watermark count is a
multiple of 5 and whose recompute flag is set completes without invoking
the path recomputation, because no path exists yet and the map is absent,
so the degenerate branch returns early — contradicting the claim that
recomputation is invoked on every such cycle. -/
theorem periodic_recompute_counterexample :
    sC2.recompute_waypoints_flag = true ∧
    (sC2.watermark_cnt + 1) % RECOMPUTE_WAYPOINT_EVERY_N_WATERMARKS = 0 ∧
    on_watermark envW flagsW 0 sC2 = .ok cycleC2x ∧
    cycleC2x.recompute_calls = 0 :=
  ⟨rfl, rfl, runC2x, rfl⟩

/-- C2 (amended): in every completed cycle, the number of invocations of
the full path recomputation is exactly: one for initialization when no
path exists and both map and goal are present (plus one more when that
same cycle's incremented watermark count is a multiple of 5 with the
recompute flag set); one on a cycle with an existing path whose
incremented watermark count is a multiple of 5 with the flag set; and
zero otherwise — in particular zero on a degenerate early-return cycle
(no path and map or goal absent), whatever its count. -/
theorem periodic_recompute_characterization (env : Env) (flags : Flags)
    (ts : ℕ) (s : OpState) (r : CycleResult)
    (hr : on_watermark env flags ts s = .ok r) :
    r.recompute_calls =
      (if s.waypoints = none then
        (if s.map.isSome && s.goal_location.isSome then
          1 + (if s.recompute_waypoints_flag &&
                (s.watermark_cnt + 1) % RECOMPUTE_WAYPOINT_EVERY_N_WATERMARKS == 0
              then 1 else 0)
        else 0)
      else
        (if s.recompute_waypoints_flag &&
            (s.watermark_cnt + 1) % RECOMPUTE_WAYPOINT_EVERY_N_WATERMARKS == 0
          then 1 else 0)) :=
  (on_watermark_ok_shape env flags ts s r hr).2.2

/-- A state with an existing path, the recompute flag set and the
watermark counter about to reach a multiple of 5. -/
def sC2w : OpState :=
  { sBase with watermark_cnt := 4, recompute_waypoints_flag := true }

/-- The cycle result of running `on_watermark envW flagsW 0 sC2w`. -/
def cycleC2 : CycleResult :=
  { state :=
      { sC2w with
        watermark_cnt := 5
        pose_msgs := []
        traffic_light_msgs := []
        prediction_msgs := [] }
    emitted := [OutMsg.waypointsMessage 0 emptyWaypoints,
                OutMsg.watermarkMessage 0]
    recompute_calls := 1
    policy_calls := 0
    distance_since_last_full_stop := 0 }

/-- Evaluation of the periodic-recompute run. -/
theorem runC2 : on_watermark envW flagsW 0 sC2w = .ok cycleC2 := by
  norm_num [on_watermark, popleft, stop_update, resolve_obstacles, main_stage,
    compute_target_speed, envW, flagsW, sBase, sC2w, poseW, tlW, cycleC2,
    emptyWaypoints, transformW, locW, RECOMPUTE_WAYPOINT_EVERY_N_WATERMARKS]

/-- Witness for the amended C2 on a concrete periodic-recompute cycle. -/
theorem periodic_recompute_characterization_witness :
    cycleC2.recompute_calls =
      (if sC2w.waypoints = none then
        (if sC2w.map.isSome && sC2w.goal_location.isSome then
          1 + (if sC2w.recompute_waypoints_flag &&
                (sC2w.watermark_cnt + 1) % RECOMPUTE_WAYPOINT_EVERY_N_WATERMARKS == 0
              then 1 else 0)
        else 0)
      else
        (if sC2w.recompute_waypoints_flag &&
            (sC2w.watermark_cnt + 1) % RECOMPUTE_WAYPOINT_EVERY_N_WATERMARKS == 0
          then 1 else 0)) :=
  periodic_recompute_characterization envW flagsW 0 sC2w cycleC2 runC2

/-- C4: a fatal contract violation — an empty required channel queue at the
watermark, or an obstacle message that is neither an `ObstaclesMessage`
nor a `PredictionMessage` — makes `on_watermark` raise an exception; under
the `Except` model an error result carries no emissions, matching the
source, where every send occurs after all raise points. -/
theorem fatal_contract_violations_raise (env : Env) (flags : Flags) (ts : ℕ)
    (s : OpState)
    (h : s.pose_msgs = [] ∨ s.traffic_light_msgs = [] ∨ s.prediction_msgs = [] ∨
         s.prediction_msgs.head? = some PredMsg.other) :
    ∃ e, on_watermark env flags ts s = .error e := by
  unfold on_watermark
  cases hp : s.pose_msgs with
  | nil => exact ⟨.indexError, by simp [popleft]⟩
  | cons pm pr =>
  cases htl : s.traffic_light_msgs with
  | nil => exact ⟨.indexError, by simp [popleft]⟩
  | cons tlm tr =>
  cases hom : s.prediction_msgs with
  | nil => exact ⟨.indexError, by simp [popleft]⟩
  | cons om orr =>
  have hop : om = PredMsg.other := by
    rcases h with h | h | h | h
    · rw [hp] at h; exact absurd h (by simp)
    · rw [htl] at h; exact absurd h (by simp)
    · rw [hom] at h; exact absurd h (by simp)
    · rw [hom] at h; simpa using h
  subst hop
  exact ⟨.valueError, by simp [popleft, resolve_obstacles]⟩

/-- The base state with an empty pose queue. -/
def sC4 : OpState := { sBase with pose_msgs := [] }

/-- Witness for C4 on a concrete state with an empty pose queue. -/
theorem fatal_contract_violations_raise_witness :
    (sC4.pose_msgs = [] ∨ sC4.traffic_light_msgs = [] ∨
     sC4.prediction_msgs = [] ∨
     sC4.prediction_msgs.head? = some PredMsg.other) ∧
    ∃ e, on_watermark envW flagsW 0 sC4 = .error e :=
  ⟨Or.inl rfl, fatal_contract_violations_raise envW flagsW 0 sC4 (Or.inl rfl)⟩

/-- When the lookahead query signals an exhausted path (ValueError from
`get_vector` or `get_angle`), the handler yields target speed 0 without
invoking the policy. -/
theorem compute_target_speed_exhausted (env : Env) (flags : Flags)
    (ego : Transform) (wps : Waypoints) (obstacles : List ObstaclePrediction)
    (tl_obstacles : List ℕ) (d : ℚ)
    (hex : env.get_vector wps ego flags.min_pid_steer_waypoint_distance = none ∨
           env.get_angle wps ego flags.min_pid_steer_waypoint_distance = none) :
    compute_target_speed env flags ego wps obstacles tl_obstacles d = (0, 0) := by
  rcases hex with h | h
  · simp [compute_target_speed, h]
  · cases hv : env.get_vector wps ego flags.min_pid_steer_waypoint_distance with
    | none => simp [compute_target_speed, hv]
    | some v => simp [compute_target_speed, hv, h]

/-- When the lookahead queries succeed but the policy raises ValueError,
the handler yields target speed 0 after invoking the policy once. -/
theorem compute_target_speed_policy_error (env : Env) (flags : Flags)
    (ego : Transform) (wps : Waypoints) (obstacles : List ObstaclePrediction)
    (tl_obstacles : List ℕ) (d : ℚ) (vec : Vector2) (ang : ℚ)
    (hv : env.get_vector wps ego flags.min_pid_steer_waypoint_distance = some vec)
    (ha : env.get_angle wps ego flags.min_pid_steer_waypoint_distance = some ang)
    (hsfa : env.stop_for_agents ego ang vec obstacles tl_obstacles d = none) :
    compute_target_speed env flags ego wps obstacles tl_obstacles d = (0, 1) := by
  simp [compute_target_speed, hv, ha, hsfa]

/-- C5: on a cycle with an existing path whose pruned form has no waypoint
at the lookahead distance (`get_vector` / `get_angle` signal ValueError),
`on_watermark` completes without invoking the stopping policy, the target
speed is 0, and the emitted horizon is whatever `slice_waypoints` returns
for the pruned path at speed 0. -/
theorem exhausted_path_fallback (env : Env) (flags : Flags) (ts : ℕ)
    (s : OpState) (pm : PoseMessage) (pr : List PoseMessage)
    (tlm : TrafficLightsMessage) (tr : List TrafficLightsMessage)
    (om : PredMsg) (orr : List PredMsg) (obstacles : List ObstaclePrediction)
    (w w1 w2 : Waypoints)
    (hp : s.pose_msgs = pm :: pr)
    (htl : s.traffic_light_msgs = tlm :: tr)
    (hom : s.prediction_msgs = om :: orr)
    (hobs : resolve_obstacles env pm.data.transform om = .ok obstacles)
    (hwp : s.waypoints = some w)
    (hw1 : w1 = (if s.recompute_waypoints_flag &&
          (s.watermark_cnt + 1) % RECOMPUTE_WAYPOINT_EVERY_N_WATERMARKS == 0 then
        env.recompute_waypoints w s.map pm.data.transform.location s.goal_location
      else w))
    (hw2 : w2 = env.remove_completed w1 pm.data.transform.location pm.data.transform)
    (hex : env.get_vector w2 pm.data.transform flags.min_pid_steer_waypoint_distance = none ∨
           env.get_angle w2 pm.data.transform flags.min_pid_steer_waypoint_distance = none) :
    ∃ r, on_watermark env flags ts s = .ok r ∧
      r.policy_calls = 0 ∧
      r.emitted = [OutMsg.waypointsMessage ts
          (env.slice_waypoints w2 0 flags.num_waypoints_ahead 0),
        OutMsg.watermarkMessage ts] := by
  subst hw2
  subst hw1
  have hcts := compute_target_speed_exhausted env flags pm.data.transform _
    obstacles tlm.obstacles (stop_update env s.last_stop_ego_location pm.data).1 hex
  simp only [Bool.and_eq_true, beq_iff_eq] at hcts
  simp only [on_watermark, hp, htl, hom, popleft, hobs, hwp]
  exact ⟨_, rfl, by simp [main_stage, hcts], by simp [main_stage, hcts]⟩

/-- Witness for C5 on a concrete exhausted-path cycle. -/
theorem exhausted_path_fallback_witness :
    ∃ r, on_watermark envW flagsW 0 sBase = .ok r ∧
      r.policy_calls = 0 ∧
      r.emitted = [OutMsg.waypointsMessage 0
          (envW.slice_waypoints emptyWaypoints 0 flagsW.num_waypoints_ahead 0),
        OutMsg.watermarkMessage 0] :=
  exhausted_path_fallback envW flagsW 0 sBase poseW [] tlW []
    (PredMsg.obstaclesMessage []) [] [] emptyWaypoints emptyWaypoints
    emptyWaypoints rfl rfl rfl rfl rfl rfl rfl (Or.inl rfl)

/-- C6: on a cycle where no path exists yet and the map or the goal is
absent, `on_watermark` completes without an exception, emitting the empty
waypoint horizon (the freshly constructed empty `Waypoints`, whose empty
speed list corresponds to target speed 0) followed by the watermark, and
leaves the path state uninitialized. -/
theorem absent_prerequisites_degenerate (env : Env) (flags : Flags) (ts : ℕ)
    (s : OpState) (pm : PoseMessage) (pr : List PoseMessage)
    (tlm : TrafficLightsMessage) (tr : List TrafficLightsMessage)
    (om : PredMsg) (orr : List PredMsg) (obstacles : List ObstaclePrediction)
    (hp : s.pose_msgs = pm :: pr)
    (htl : s.traffic_light_msgs = tlm :: tr)
    (hom : s.prediction_msgs = om :: orr)
    (hobs : resolve_obstacles env pm.data.transform om = .ok obstacles)
    (hwp : s.waypoints = none)
    (habs : s.map = none ∨ s.goal_location = none) :
    ∃ r, on_watermark env flags ts s = .ok r ∧
      r.emitted = [OutMsg.waypointsMessage ts emptyWaypoints,
                   OutMsg.watermarkMessage ts] ∧
      r.state.waypoints = none := by
  have hmg : (s.map.isSome && s.goal_location.isSome) = false := by
    rcases habs with h | h <;> simp [h]
  simp only [on_watermark, hp, htl, hom, popleft, hobs, hwp, hmg,
    Bool.false_eq_true, if_false]
  exact ⟨_, rfl, rfl, rfl⟩

/-- The base state with the path store uninitialized. -/
def sC6 : OpState := { sBase with waypoints := none }

/-- Witness for C6 on a concrete degenerate cycle. -/
theorem absent_prerequisites_degenerate_witness :
    sC6.waypoints = none ∧ sC6.map = none ∧
    ∃ r, on_watermark envW flagsW 0 sC6 = .ok r ∧
      r.emitted = [OutMsg.waypointsMessage 0 emptyWaypoints,
                   OutMsg.watermarkMessage 0] ∧
      r.state.waypoints = none :=
  ⟨rfl, rfl, absent_prerequisites_degenerate envW flagsW 0 sC6 poseW [] tlW []
    (PredMsg.obstaclesMessage []) [] [] rfl rfl rfl rfl rfl (Or.inl rfl)⟩

/-- C9: a ValueError raised by the stopping policy on a cycle with a usable
path is handled by the same `except ValueError` handler as the
exhausted-path condition: `on_watermark` completes, the policy was invoked
once, the target speed is 0, and the emitted horizon is the pruned path
sliced at speed 0 followed by the watermark — the same output shape as an
exhausted path. -/
theorem policy_value_error_caught (env : Env) (flags : Flags) (ts : ℕ)
    (s : OpState) (pm : PoseMessage) (pr : List PoseMessage)
    (tlm : TrafficLightsMessage) (tr : List TrafficLightsMessage)
    (om : PredMsg) (orr : List PredMsg) (obstacles : List ObstaclePrediction)
    (w w1 w2 : Waypoints) (vec : Vector2) (ang : ℚ)
    (hp : s.pose_msgs = pm :: pr)
    (htl : s.traffic_light_msgs = tlm :: tr)
    (hom : s.prediction_msgs = om :: orr)
    (hobs : resolve_obstacles env pm.data.transform om = .ok obstacles)
    (hwp : s.waypoints = some w)
    (hw1 : w1 = (if s.recompute_waypoints_flag &&
          (s.watermark_cnt + 1) % RECOMPUTE_WAYPOINT_EVERY_N_WATERMARKS == 0 then
        env.recompute_waypoints w s.map pm.data.transform.location s.goal_location
      else w))
    (hw2 : w2 = env.remove_completed w1 pm.data.transform.location pm.data.transform)
    (hv : env.get_vector w2 pm.data.transform flags.min_pid_steer_waypoint_distance = some vec)
    (ha : env.get_angle w2 pm.data.transform flags.min_pid_steer_waypoint_distance = some ang)
    (hsfa : env.stop_for_agents pm.data.transform ang vec obstacles tlm.obstacles
        (stop_update env s.last_stop_ego_location pm.data).1 = none) :
    ∃ r, on_watermark env flags ts s = .ok r ∧
      r.policy_calls = 1 ∧
      r.emitted = [OutMsg.waypointsMessage ts
          (env.slice_waypoints w2 0 flags.num_waypoints_ahead 0),
        OutMsg.watermarkMessage ts] := by
  subst hw2
  subst hw1
  have hcts := compute_target_speed_policy_error env flags pm.data.transform _
    obstacles tlm.obstacles (stop_update env s.last_stop_ego_location pm.data).1
    vec ang hv ha hsfa
  simp only [Bool.and_eq_true, beq_iff_eq] at hcts
  simp only [on_watermark, hp, htl, hom, popleft, hobs, hwp]
  exact ⟨_, rfl, by simp [main_stage, hcts], by simp [main_stage, hcts]⟩

/-- An environment whose lookahead queries succeed but whose stopping
policy raises ValueError. -/
def envP : Env :=
  { envW with
    get_vector := fun _ _ _ => some ⟨1, 0⟩
    get_angle := fun _ _ _ => some 0 }

/-- Witness for C9 on a concrete failing-policy cycle. -/
theorem policy_value_error_caught_witness :
    ∃ r, on_watermark envP flagsW 0 sBase = .ok r ∧
      r.policy_calls = 1 ∧
      r.emitted = [OutMsg.waypointsMessage 0
          (envP.slice_waypoints emptyWaypoints 0 flagsW.num_waypoints_ahead 0),
        OutMsg.watermarkMessage 0] :=
  policy_value_error_caught envP flagsW 0 sBase poseW [] tlW []
    (PredMsg.obstaclesMessage []) [] [] emptyWaypoints emptyWaypoints
    emptyWaypoints ⟨1, 0⟩ 0 rfl rfl rfl rfl rfl rfl rfl rfl rfl rfl

/-- A concrete model of rigid-pose composition used for closed evaluations:
translations add and yaws add. -/
def Transform.compose (a b : Transform) : Transform :=
  ⟨⟨a.location.x + b.location.x, a.location.y + b.location.y,
    a.location.z + b.location.z⟩, a.yaw + b.yaw⟩

/-- A concrete ego transform away from the origin. -/
def egoW : Transform := ⟨⟨1, 0, 0⟩, 0⟩

/-- A concrete obstacle prediction. -/
def predW : ObstaclePrediction := ⟨7, 1, ⟨⟨2, 3, 4⟩, 5⟩, [⟨⟨1, 1, 1⟩, 0⟩]⟩

/-- C7: for every ego transform and sequence of ego-relative predictions,
`predictions_to_world_coordinates` returns a sequence of the same length
in which the i-th prediction's pose is the composition of the ego
transform with its relative pose and every point of its trajectory is
transformed by the same composition (its remaining fields preserved); the
empty sequence maps to the empty sequence. -/
theorem predictions_to_world_coordinates_spec
    (mul : Transform → Transform → Transform) (ego_transform : Transform)
    (preds : List ObstaclePrediction) (i : ℕ) :
    predictions_to_world_coordinates mul ego_transform [] = [] ∧
    (predictions_to_world_coordinates mul ego_transform preds).length =
      preds.length ∧
    ∀ op, preds[i]? = some op →
      (predictions_to_world_coordinates mul ego_transform preds)[i]? =
        some { op with
          transform := mul ego_transform op.transform,
          predicted_trajectory :=
            op.predicted_trajectory.map (fun t => mul ego_transform t) } := by
  have hm := predictions_to_world_coordinates_eq_map mul ego_transform preds
  refine ⟨rfl, by rw [hm, List.length_map], fun op hop => ?_⟩
  rw [hm, List.getElem?_map, hop]
  rfl

/-- Witness for C7 on a concrete one-element prediction list. -/
theorem predictions_to_world_coordinates_spec_witness :
    [predW][0]? = some predW ∧
    predictions_to_world_coordinates Transform.compose egoW [] = [] ∧
    (predictions_to_world_coordinates Transform.compose egoW [predW]).length =
      [predW].length ∧
    (predictions_to_world_coordinates Transform.compose egoW [predW])[0]? =
      some { predW with
        transform := Transform.compose egoW predW.transform,
        predicted_trajectory :=
          predW.predicted_trajectory.map (fun t => Transform.compose egoW t) } :=
  ⟨rfl,
   (predictions_to_world_coordinates_spec Transform.compose egoW [predW] 0).1,
   (predictions_to_world_coordinates_spec Transform.compose egoW [predW] 0).2.1,
   (predictions_to_world_coordinates_spec Transform.compose egoW
     [predW] 0).2.2 predW rfl⟩

/-- C8 counterexample: the claim that the passed obstacle predictions are
left unmodified is false at a concrete input — the source reassigns each
prediction's transform and trajectory in place and returns the same (now
updated) list, so after the call the prediction list differs from its
original value. -/
theorem predictions_mutation_counterexample :
    predictions_to_world_coordinates Transform.compose egoW [predW] ≠
      [predW] := by
  norm_num [predictions_to_world_coordinates, Transform.compose, egoW, predW]

/-- C8 (amended): `predictions_to_world_coordinates` reads and writes no
operator state and leaves the ego transform unchanged, but it updates each
passed obstacle prediction in place: its entire effect is to replace every
prediction's pose by the composed pose and every trajectory point by its
composed image, preserving all other fields, and to return the resulting
list. -/
theorem predictions_to_world_coordinates_effect
    (mul : Transform → Transform → Transform) (ego_transform : Transform)
    (preds : List ObstaclePrediction) :
    predictions_to_world_coordinates mul ego_transform preds =
      preds.map (fun op =>
        { op with
          transform := mul ego_transform op.transform,
          predicted_trajectory :=
            op.predicted_trajectory.map (fun t => mul ego_transform t) }) :=
  predictions_to_world_coordinates_eq_map mul ego_transform preds

/-- C10: the two message constructors validate their inputs strictly — they
raise ValueError exactly when an argument has the wrong dynamic type — and
on success `CollisionMessage` stores the collided actor's type identifier
and the magnitude of the impulse as the intensity, while
`LaneInvasionMessage` stores the given lane markings and lane type
unchanged. -/
theorem simulation_messages_validation :
    (∀ (magnitude : Vector3D → ℚ) (ca imp : PyVal) (ts : ℕ),
      CollisionMessage.init magnitude ca imp ts = .error .valueError ↔
        (¬ ca.isActor = true ∨ ¬ imp.isVector3D = true)) ∧
    (∀ (magnitude : Vector3D → ℚ) (a : Actor) (v : Vector3D) (ts : ℕ),
      CollisionMessage.init magnitude (.actor a) (.vector3d v) ts =
        .ok ⟨ts, a.type_id, v, magnitude v⟩) ∧
    (∀ (lms : List PyVal) (lt : PyVal) (ts : ℕ),
      LaneInvasionMessage.init lms lt ts = .error .valueError ↔
        (¬ lms.all PyVal.isLaneMarking = true ∨ ¬ lt.isLaneType = true)) ∧
    (∀ (lms : List PyVal) (lt : PyVal) (ts : ℕ),
      lms.all PyVal.isLaneMarking = true → lt.isLaneType = true →
      LaneInvasionMessage.init lms lt ts = .ok ⟨ts, lms, lt⟩) := by
  refine ⟨?_, ?_, ?_, ?_⟩
  · intro magnitude ca imp ts
    cases ca <;> cases imp <;>
      simp [CollisionMessage.init, PyVal.isActor, PyVal.isVector3D]
  · intro magnitude a v ts
    rfl
  · intro lms lt ts
    by_cases h1 : lms.all PyVal.isLaneMarking = true
    · by_cases h2 : lt.isLaneType = true
      · simp [LaneInvasionMessage.init, h1, h2]
      · simp [LaneInvasionMessage.init, h1, h2]
    · simp [LaneInvasionMessage.init, h1]
  · intro lms lt ts h1 h2
    simp [LaneInvasionMessage.init, h1, h2]

/-- Witness for C10 on concrete well-typed constructor arguments. -/
theorem simulation_messages_validation_witness :
    ([PyVal.laneMarking 0].all PyVal.isLaneMarking = true) ∧
    (PyVal.laneType 1).isLaneType = true ∧
    LaneInvasionMessage.init [PyVal.laneMarking 0] (PyVal.laneType 1) 5 =
      .ok ⟨5, [PyVal.laneMarking 0], PyVal.laneType 1⟩ :=
  ⟨rfl, rfl,
   simulation_messages_validation.2.2.2 [PyVal.laneMarking 0]
     (PyVal.laneType 1) 5 rfl rfl⟩
